import Mathlib

/-!
Verification of the woodgate model-definition glue layer.

The development shallowly embeds the two source modules
`woodgate/model/definition.py` and `woodgate/model/model_summary.py`.
Environment lookup, path joining, directory creation and the external
deep-learning library calls are modelled explicitly; the glue logic
(path resolution precedence, configuration parsing order, the fixed
layer graph, weight loading into the encoder sublayer) is translated
from the source.
-/

namespace Woodgate

/-- A process environment: a mapping from variable names to optional values. -/
def Env : Type := String → Option String

/-- Modelled from the documented semantics of POSIX os.path.join on two
components: an absolute second component replaces the first; otherwise the
second is appended, inserting a separator unless the first is empty or
already ends in one. -/
def osPathJoin (a b : String) : String :=
  if b.data.head? = some '/' then b
  else if a.data = [] then b
  else if a.data.getLast? = some '/' then a ++ b
  else a ++ "/" ++ b

/-- Modelled from Python os.getenv(name, default): the variable value when
set, the default otherwise. -/
def osGetenv (env : Env) (name default : String) : String :=
  (env name).getD default

/-- The parse result of the encoder configuration JSON, mirroring the fields
of the external StockBertConfig that the assembler passes through; the
optional adapter_size records what the JSON specifies for adapters, if
anything. -/
structure StockBertConfig where
  hidden_size : Int
  num_hidden_layers : Int
  num_attention_heads : Int
  intermediate_size : Int
  vocab_size : Int
  max_position_embeddings : Int
  adapter_size : Option Int
  deriving DecidableEq, Repr

/-- The encoder instantiation parameters produced by the external
map_stock_config_to_params translation. -/
structure BertParams where
  hidden_size : Int
  num_layers : Int
  num_heads : Int
  intermediate_size : Int
  vocab_size : Int
  max_position_embeddings : Int
  adapter_size : Option Int
  deriving DecidableEq, Repr

/-- Modelled from the external bert.loader.map_stock_config_to_params: a
field-for-field translation of the stock configuration into the encoder
factory's parameter format. -/
def map_stock_config_to_params (bc : StockBertConfig) : BertParams :=
  { hidden_size := bc.hidden_size
    num_layers := bc.num_hidden_layers
    num_heads := bc.num_attention_heads
    intermediate_size := bc.intermediate_size
    vocab_size := bc.vocab_size
    max_position_embeddings := bc.max_position_embeddings
    adapter_size := bc.adapter_size }

/-- Contents of a file on the modelled file system: a text file characterized
by the outcome of JSON-parsing it as a stock encoder configuration, a
weights checkpoint identified by an opaque id, or a vocabulary file listing
one subword token per line. -/
inductive FileContent
  | config (parsed : Except String StockBertConfig)
  | checkpoint (ckptId : Nat)
  | vocab (tokens : List String)
  deriving Repr

/-- A file-system state: the set of existing directories, the paths whose
creation is denied (for example by permissions), and the readable files. -/
structure FileSystem where
  dirs : List String
  denied : List String
  files : String → Option FileContent

/-- A file-system error raised by directory creation. -/
inductive FsError
  | permissionDenied (path : String)
  deriving DecidableEq, Repr

/-- Modelled from the documented semantics of Python os.makedirs with
exist_ok set to True: an existing directory is left untouched without an
error; creation of a denied path raises; otherwise the directory is
created. -/
def makedirs (fs : FileSystem) (path : String) : Except FsError FileSystem :=
  if path ∈ fs.dirs then .ok fs
  else if path ∈ fs.denied then .error (.permissionDenied path)
  else .ok { fs with dirs := path :: fs.dirs }

namespace Definition

/-- Translated from Definition.bert_dir: the BERT_DIR environment override
when set, else the shared base directory joined with "bert". The shared
base directory (FileSystemConfiguration.woodgate_base_dir, out of scope)
is taken as the parameter base. -/
def bert_dir (env : Env) (base : String) : String :=
  osGetenv env "BERT_DIR" (osPathJoin base "bert")

/-- Translated from Definition.bert_config: the BERT_CONFIG environment
override when set, else the resolved encoder directory joined with
"bert_config.json". -/
def bert_config (env : Env) (base : String) : String :=
  osGetenv env "BERT_CONFIG" (osPathJoin (bert_dir env base) "bert_config.json")

/-- Translated from Definition.bert_model: the BERT_MODEL environment
override when set, else the resolved encoder directory joined with
"bert_model.ckpt". -/
def bert_model (env : Env) (base : String) : String :=
  osGetenv env "BERT_MODEL" (osPathJoin (bert_dir env base) "bert_model.ckpt")

/-- Translated from the Definition class body: resolve the encoder directory
and create it with os.makedirs(bert_dir, exist_ok=True), propagating any
file-system error. -/
def resolverStartup (env : Env) (base : String) (fs : FileSystem) :
    Except FsError FileSystem :=
  makedirs fs (bert_dir env base)

end Definition

/-- Parameter state of a layer: layers without trainable parameters, layers
whose parameters are freshly randomly initialized at assembly time
(identified by an allocation seed), and layers whose parameters were
populated from a checkpoint file. -/
inductive Weights
  | noParams
  | fresh (seed : Nat)
  | loadedFrom (path : String) (ckptId : Nat)
  deriving DecidableEq, Repr

/-- The kinds of layers the assembler wires together: an integer input
placeholder, the encoder, first-token pooling (the Lambda selecting
sequence position 0), dropout, and dense projections. -/
inductive LayerKind
  | input (shape : Int) (dtype : String)
  | bert (params : BertParams)
  | firstTokenPooling
  | dropout (rate : Rat)
  | dense (units : Int) (act : String)
  deriving DecidableEq, Repr

/-- A layer of the assembled graph: its kind, its optional keras name, and
its parameter state. -/
structure Layer where
  kind : LayerKind
  name : Option String
  weights : Weights
  deriving DecidableEq, Repr

/-- Shape inference for one layer, on shapes whose leading batch dimension
is unknown (none): the input placeholder yields (batch, len); the encoder
appends its hidden size as a per-token feature dimension; first-token
pooling removes the sequence dimension; dropout preserves shape; a dense
layer replaces the last dimension by its unit count. -/
def LayerKind.outShape : LayerKind → List (Option Int) → List (Option Int)
  | .input len _, _ => [none, some len]
  | .bert p, s => s ++ [some p.hidden_size]
  | .firstTokenPooling, b :: _ :: rest => b :: rest
  | .firstTokenPooling, s => s
  | .dropout _, s => s
  | .dense u _, s => s.dropLast ++ [some u]

/-- The shape of the output tensor obtained by threading shape inference
through a layer sequence. -/
def outputShapeOf (layers : List Layer) : List (Option Int) :=
  layers.foldl (fun s l => l.kind.outShape s) []

/-- The assembled keras model: its ordered layer graph, the input shape the
graph was built with, the identity of the graph object (an allocation id),
and whether build has run. -/
structure KerasModel where
  layers : List Layer
  builtInputShape : Option Int × Option Int
  graphId : Nat
  built : Bool
  deriving DecidableEq, Repr

/-- The model's inferred output shape. -/
def KerasModel.outputShape (m : KerasModel) : List (Option Int) :=
  outputShapeOf m.layers

/-- The size of the model's final output dimension, when defined. -/
def KerasModel.outputDim (m : KerasModel) : Option Int :=
  (m.outputShape.getLast?).getD none

/-- Modelled from keras.Model.summary: on a built model it writes a textual
layer-by-layer description and returns; on an unbuilt model it raises. -/
def KerasModel.summary (m : KerasModel) : Except String String :=
  if m.built then .ok (toString (m.layers.map (fun l => l.name)))
  else .error "This model has not yet been built."

/-- The observable steps create_model performs, in order, used to state
ordering properties between configuration parsing and weight loading. -/
inductive Step
  | readConfig (path : String)
  | parseConfig
  | instantiateEncoder (params : BertParams)
  | assembleGraph
  | buildShapes (maxSeqLen : Int)
  | loadWeights (path : String)
  deriving DecidableEq, Repr

/-- An error raised during model assembly. -/
inductive ModelError
  | fileNotFound (path : String)
  | parseError (msg : String)
  | weightLoadError (path : String)
  deriving DecidableEq, Repr

/-- Modelled from the external StockBertConfig.from_json_string applied to a
file's text: yields the parse outcome recorded for a configuration file and
fails on any other content. -/
def StockBertConfig.from_json_string : FileContent → Except String StockBertConfig
  | .config r => r
  | _ => .error "invalid configuration file"

/-- Modelled from the external bert.loader.load_stock_weights: populates in
place the parameters of the encoder sublayer it is handed (the layer named
"bert") from the checkpoint, leaving any other layer untouched. -/
def load_stock_weights (path : String) (ckptId : Nat) (l : Layer) : Layer :=
  if l.name = some "bert" then { l with weights := .loadedFrom path ckptId }
  else l

namespace Definition

/-- Translated from the graph-wiring section of Definition.create_model: the
ordered composition input placeholder, encoder (named "bert"), first-token
pooling Lambda, dropout 0.5, dense 768 tanh, dropout 0.5, dense
number_of_intents softmax; alloc seeds the fresh parameter initializations
of the encoder and the two dense layers. -/
def assembledLayers (bert_params : BertParams) (alloc : Nat)
    (max_sequence_length number_of_intents : Int) : List Layer :=
  [ { kind := .input max_sequence_length "int32", name := some "input_ids",
      weights := .noParams },
    { kind := .bert bert_params, name := some "bert",
      weights := .fresh alloc },
    { kind := .firstTokenPooling, name := none, weights := .noParams },
    { kind := .dropout (1 / 2), name := none, weights := .noParams },
    { kind := .dense 768 "tanh", name := none, weights := .fresh (alloc + 1) },
    { kind := .dropout (1 / 2), name := none, weights := .noParams },
    { kind := .dense number_of_intents "softmax", name := none,
      weights := .fresh (alloc + 2) } ]

/-- Translated from Definition.create_model: read the configuration file at
the resolved config path, parse it, force adapter_size to disabled,
instantiate the encoder, wire the fixed layer graph, build it for the
given input shape, then load the stock weights into the encoder sublayer
from the resolved checkpoint path. Returns the ordered step trace together
with the result; alloc threads object allocation so that each call owns a
fresh graph. -/
def create_model (env : Env) (base : String) (fs : FileSystem) (alloc : Nat)
    (max_sequence_length number_of_intents : Int) :
    List Step × Except ModelError (KerasModel × Nat) :=
  match fs.files (bert_config env base) with
  | none =>
      ([.readConfig (bert_config env base)],
        .error (.fileNotFound (bert_config env base)))
  | some content =>
      match StockBertConfig.from_json_string content with
      | .error msg =>
          ([.readConfig (bert_config env base), .parseConfig],
            .error (.parseError msg))
      | .ok bc =>
          let bert_params :=
            { map_stock_config_to_params bc with adapter_size := none }
          let layers :=
            assembledLayers bert_params alloc max_sequence_length
              number_of_intents
          let model0 : KerasModel :=
            { layers := layers
              builtInputShape := (none, some max_sequence_length)
              graphId := alloc + 3
              built := true }
          let steps : List Step :=
            [.readConfig (bert_config env base), .parseConfig,
              .instantiateEncoder bert_params, .assembleGraph,
              .buildShapes max_sequence_length,
              .loadWeights (bert_model env base)]
          match fs.files (bert_model env base) with
          | some (.checkpoint ck) =>
              (steps,
                .ok ({ model0 with
                        layers :=
                          layers.map
                            (load_stock_weights (bert_model env base) ck) },
                  alloc + 4))
          | _ =>
              (steps, .error (.weightLoadError (bert_model env base)))

end Definition

/-- A tokenizer instance: bound to a vocabulary file path, with an
allocation id recording that each call constructs a distinct instance. -/
structure FullTokenizer where
  vocab_file : String
  instanceId : Nat
  deriving DecidableEq, Repr

/-- Modelled from the external FullTokenizer: tokenization is a
deterministic function of the vocabulary file's contents and the input
string alone; each whitespace-separated word is mapped to its index in the
vocabulary list. Fails when the vocabulary file is missing. -/
def FullTokenizer.tokenize (t : FullTokenizer) (fs : FileSystem)
    (input : String) : Option (List Nat) :=
  match fs.files t.vocab_file with
  | some (.vocab tokens) =>
      some ((input.data.splitOn ' ').map (fun w => tokens.indexOf (String.mk w)))
  | _ => none

namespace Definition

/-- Translated from Definition.get_tokenizer: construct a new FullTokenizer
bound to the vocab.txt file inside the resolved encoder directory; alloc
threads instance allocation, so every call yields a fresh instance. -/
def get_tokenizer (env : Env) (base : String) (alloc : Nat) :
    FullTokenizer × Nat :=
  ({ vocab_file := osPathJoin (bert_dir env base) "vocab.txt",
     instanceId := alloc }, alloc + 1)

end Definition

namespace ModelSummary

/-- Translated from ModelSummary.print: return bert_model.summary(),
delegating directly to the model's own summary routine. -/
def print (bert_model : KerasModel) : Except String String :=
  bert_model.summary

end ModelSummary

end Woodgate

namespace Woodgate

/-- A sample environment for concrete evaluation: BERT_DIR is set, the other
variables are unset. -/
def envDirOnly : Env :=
  fun n => if n = "BERT_DIR" then some "/opt/enc" else none

/-- A sample file system with no directories and no files. -/
def fsEmpty : FileSystem :=
  { dirs := [], denied := [], files := fun _ => none }

/-- A sample parsed encoder configuration whose JSON specifies a
non-disabled adapter size. -/
def bcSample : StockBertConfig :=
  { hidden_size := 768, num_hidden_layers := 12, num_attention_heads := 12,
    intermediate_size := 3072, vocab_size := 30522,
    max_position_embeddings := 512, adapter_size := some 64 }

/-- A sample file system holding a valid configuration, checkpoint and
vocabulary under the /opt/enc encoder directory. -/
def fsValid : FileSystem :=
  { dirs := ["/opt/enc"], denied := [],
    files := fun p =>
      if p = "/opt/enc/bert_config.json" then some (.config (.ok bcSample))
      else if p = "/opt/enc/bert_model.ckpt" then some (.checkpoint 7)
      else if p = "/opt/enc/vocab.txt" then
        some (.vocab ["[CLS]", "hello", "world"])
      else none }

/-- The sample encoder parameters after the assembler forces the adapter
size to disabled. -/
def bpSample : BertParams :=
  { map_stock_config_to_params bcSample with adapter_size := none }

/-- The model produced by create_model on the sample file system with
allocation counter 0, max sequence length 128 and five intents. -/
def mSample : KerasModel :=
  { layers :=
      (Definition.assembledLayers bpSample 0 128 5).map
        (load_stock_weights "/opt/enc/bert_model.ckpt" 7)
    builtInputShape := (none, some 128)
    graphId := 3
    built := true }

/-- The model produced by a second create_model call on the sample file
system, with the allocation counter left by the first call. -/
def mSample2 : KerasModel :=
  { layers :=
      (Definition.assembledLayers bpSample 4 128 5).map
        (load_stock_weights "/opt/enc/bert_model.ckpt" 7)
    builtInputShape := (none, some 128)
    graphId := 7
    built := true }

/-- C2: each resolved path equals its environment override when the variable
is set, and otherwise equals the join of the resolved encoder directory
(itself defaulting to base joined with "bert") with the fixed relative
name, for every combination of set and unset variables. -/
theorem resolved_paths_follow_env_precedence (env : Env) (base : String) :
    (∀ v, env "BERT_DIR" = some v → Definition.bert_dir env base = v) ∧
    (env "BERT_DIR" = none →
      Definition.bert_dir env base = osPathJoin base "bert") ∧
    (∀ v, env "BERT_CONFIG" = some v → Definition.bert_config env base = v) ∧
    (env "BERT_CONFIG" = none →
      Definition.bert_config env base =
        osPathJoin (Definition.bert_dir env base) "bert_config.json") ∧
    (∀ v, env "BERT_MODEL" = some v → Definition.bert_model env base = v) ∧
    (env "BERT_MODEL" = none →
      Definition.bert_model env base =
        osPathJoin (Definition.bert_dir env base) "bert_model.ckpt") := by
  refine ⟨fun v hv => ?_, fun h => ?_, fun v hv => ?_, fun h => ?_,
    fun v hv => ?_, fun h => ?_⟩ <;>
    simp_all [Definition.bert_dir, Definition.bert_config,
      Definition.bert_model, osGetenv]

/-- Concrete instance of C2: with only BERT_DIR set, the encoder directory is
the override and the config path is the fallback under it. -/
theorem resolved_paths_follow_env_precedence_witness :
    Definition.bert_dir envDirOnly "/base" = "/opt/enc" ∧
    Definition.bert_config envDirOnly "/base" = "/opt/enc/bert_config.json" := by
  constructor
  · exact (resolved_paths_follow_env_precedence envDirOnly "/base").1 "/opt/enc" rfl
  · have h := (resolved_paths_follow_env_precedence envDirOnly "/base").2.2.2.1 rfl
    rw [h]
    rw [(resolved_paths_follow_env_precedence envDirOnly "/base").1 "/opt/enc" rfl]
    decide

/-- C7: after a successful resolver startup the encoder directory exists,
startup is idempotent (an existing directory never causes a failure), and
a denied creation propagates as a fatal error. -/
theorem encoder_dir_exists_and_idempotent (env : Env) (base : String)
    (fs fs0 : FileSystem)
    (h : Definition.resolverStartup env base fs = .ok fs0) :
    Definition.bert_dir env base ∈ fs0.dirs ∧
    Definition.resolverStartup env base fs0 = .ok fs0 ∧
    (∀ fs1 : FileSystem, Definition.bert_dir env base ∉ fs1.dirs →
      Definition.bert_dir env base ∈ fs1.denied →
      Definition.resolverStartup env base fs1 =
        .error (.permissionDenied (Definition.bert_dir env base))) := by
  unfold Definition.resolverStartup makedirs at *
  by_cases hmem : Definition.bert_dir env base ∈ fs.dirs
  · simp [hmem] at h
    subst h
    refine ⟨hmem, by simp [hmem], ?_⟩
    intro fs1 h1 h2
    simp [h1, h2]
  · by_cases hden : Definition.bert_dir env base ∈ fs.denied
    · simp [hmem, hden] at h
    · simp [hmem, hden] at h
      subst h
      refine ⟨by simp, by simp, ?_⟩
      intro fs1 h1 h2
      simp [h1, h2]

/-- Concrete instance of C7: starting the resolver on an empty file system
succeeds and the created encoder directory then exists and re-creation is
a no-op. -/
theorem encoder_dir_exists_and_idempotent_witness :
    Definition.bert_dir envDirOnly "/base" ∈
      ({ dirs := ["/opt/enc"], denied := [], files := fun _ => none } :
        FileSystem).dirs :=
  (encoder_dir_exists_and_idempotent envDirOnly "/base" fsEmpty
    { dirs := ["/opt/enc"], denied := [], files := fun _ => none } rfl).1

/-- C1: for every positive max sequence length L and positive number of
intents N, a successful create_model returns the ordered composition of an
int32 input placeholder of shape L, the encoder, first-token pooling,
dropout 0.5, a dense 768 tanh layer, dropout 0.5 and a dense N softmax
layer, and the model's final output dimension equals exactly N. -/
theorem create_model_graph_structure (env : Env) (base : String)
    (fs : FileSystem) (alloc : Nat) (L N : Int) (bc : StockBertConfig)
    (m : KerasModel) (a1 : Nat) (hL : 0 < L) (hN : 0 < N)
    (hc : fs.files (Definition.bert_config env base) =
      some (.config (.ok bc)))
    (hk : ∃ ck, fs.files (Definition.bert_model env base) =
      some (.checkpoint ck))
    (hm : (Definition.create_model env base fs alloc L N).2 = .ok (m, a1)) :
    m.layers.map (fun l => l.kind) =
      [.input L "int32",
        .bert { map_stock_config_to_params bc with adapter_size := none },
        .firstTokenPooling, .dropout (1 / 2), .dense 768 "tanh",
        .dropout (1 / 2), .dense N "softmax"] ∧
    m.outputDim = some N := by
  obtain ⟨ck, hk⟩ := hk
  simp [Definition.create_model, hc, hk, StockBertConfig.from_json_string]
    at hm
  obtain ⟨hm1, hm2⟩ := hm
  subst hm1
  constructor
  · simp [Definition.assembledLayers, load_stock_weights]
  · simp [KerasModel.outputDim, KerasModel.outputShape, outputShapeOf,
      Definition.assembledLayers, load_stock_weights, LayerKind.outShape]

/-- Concrete instance of C1: on the sample file system with five intents the
returned model has the stated seven-layer structure and output dimension
five. -/
theorem create_model_graph_structure_witness :
    mSample.layers.map (fun l => l.kind) =
      [.input 128 "int32",
        .bert { map_stock_config_to_params bcSample with
                  adapter_size := none },
        .firstTokenPooling, .dropout (1 / 2), .dense 768 "tanh",
        .dropout (1 / 2), .dense 5 "softmax"] ∧
    mSample.outputDim = some 5 :=
  create_model_graph_structure envDirOnly "/base" fsValid 0 128 5 bcSample
    mSample 4 (by decide) (by decide) rfl ⟨7, rfl⟩ rfl

/-- C3: whatever the configuration JSON specifies, create_model forces the
adapter-size hyperparameter to disabled before instantiating the encoder:
every encoder instantiation step in the trace, and every encoder layer of
a returned model, carries adapter_size none. -/
theorem adapter_size_forced_disabled (env : Env) (base : String)
    (fs : FileSystem) (alloc : Nat) (L N : Int) :
    (∀ p, Step.instantiateEncoder p ∈
        (Definition.create_model env base fs alloc L N).1 →
      p.adapter_size = none) ∧
    (∀ m a1, (Definition.create_model env base fs alloc L N).2 =
        .ok (m, a1) →
      ∀ l ∈ m.layers, ∀ q, l.kind = .bert q → q.adapter_size = none) := by
  rcases hfc : fs.files (Definition.bert_config env base) with _ | content
  · constructor
    · intro p hp
      simp [Definition.create_model, hfc] at hp
    · intro m a1 hm
      simp [Definition.create_model, hfc] at hm
  · rcases hp : StockBertConfig.from_json_string content with msg | bc
    · constructor
      · intro p hmem
        simp [Definition.create_model, hfc, hp] at hmem
      · intro m a1 hm
        simp [Definition.create_model, hfc, hp] at hm
    · rcases hck : fs.files (Definition.bert_model env base) with _ | c
      · constructor
        · intro p hmem
          simp [Definition.create_model, hfc, hp, hck] at hmem
          subst hmem
          rfl
        · intro m a1 hm
          simp [Definition.create_model, hfc, hp, hck] at hm
      · rcases c with r | ck | toks
        · constructor
          · intro p hmem
            simp [Definition.create_model, hfc, hp, hck] at hmem
            subst hmem
            rfl
          · intro m a1 hm
            simp [Definition.create_model, hfc, hp, hck] at hm
        · constructor
          · intro p hmem
            simp [Definition.create_model, hfc, hp, hck] at hmem
            subst hmem
            rfl
          · intro m a1 hm
            simp [Definition.create_model, hfc, hp, hck] at hm
            obtain ⟨hm1, -⟩ := hm
            subst hm1
            intro l hl q hq
            simp [Definition.assembledLayers, load_stock_weights] at hl
            rcases hl with h | h | h | h | h | h | h <;> subst h <;>
              simp at hq <;> try exact hq ▸ rfl
        · constructor
          · intro p hmem
            simp [Definition.create_model, hfc, hp, hck] at hmem
            subst hmem
            rfl
          · intro m a1 hm
            simp [Definition.create_model, hfc, hp, hck] at hm

/-- Concrete instance of C3: on the sample configuration, which requests an
adapter size of 64, the encoder is instantiated with adapters disabled. -/
theorem adapter_size_forced_disabled_witness :
    bcSample.adapter_size = some 64 ∧ bpSample.adapter_size = none :=
  ⟨rfl,
    (adapter_size_forced_disabled envDirOnly "/base" fsValid 0 128 5).1
      bpSample (by decide)⟩

/-- C4: when the configuration file is missing or malformed, create_model
fails with a fatal error and no weight-loading step ever occurs; moreover
in every execution whose trace contains a weight-loading step, the trace
reads and parses the configuration strictly before loading the weights. -/
theorem config_parse_precedes_weight_load (env : Env) (base : String)
    (fs : FileSystem) (alloc : Nat) (L N : Int) :
    (fs.files (Definition.bert_config env base) = none →
      (Definition.create_model env base fs alloc L N).2 =
        .error (.fileNotFound (Definition.bert_config env base)) ∧
      ∀ p, Step.loadWeights p ∉
        (Definition.create_model env base fs alloc L N).1) ∧
    (∀ content msg,
      fs.files (Definition.bert_config env base) = some content →
      StockBertConfig.from_json_string content = .error msg →
      (Definition.create_model env base fs alloc L N).2 =
        .error (.parseError msg) ∧
      ∀ p, Step.loadWeights p ∉
        (Definition.create_model env base fs alloc L N).1) ∧
    (∀ p, Step.loadWeights p ∈
        (Definition.create_model env base fs alloc L N).1 →
      ∃ q, (Definition.create_model env base fs alloc L N).1 =
        [.readConfig (Definition.bert_config env base), .parseConfig,
          .instantiateEncoder q, .assembleGraph, .buildShapes L,
          .loadWeights (Definition.bert_model env base)]) := by
  refine ⟨?_, ?_, ?_⟩
  · intro hfc
    simp [Definition.create_model, hfc]
  · intro content msg hfc hparse
    simp [Definition.create_model, hfc, hparse]
  · intro p hmem
    rcases hfc : fs.files (Definition.bert_config env base) with _ | content
    · simp [Definition.create_model, hfc] at hmem
    · rcases hp : StockBertConfig.from_json_string content with msg | bc
      · simp [Definition.create_model, hfc, hp] at hmem
      · rcases hck : fs.files (Definition.bert_model env base) with _ | c
        · exact ⟨{ map_stock_config_to_params bc with adapter_size := none },
            by simp [Definition.create_model, hfc, hp, hck]⟩
        · rcases c with r | ck | toks
          · exact
              ⟨{ map_stock_config_to_params bc with adapter_size := none },
                by simp [Definition.create_model, hfc, hp, hck]⟩
          · exact
              ⟨{ map_stock_config_to_params bc with adapter_size := none },
                by simp [Definition.create_model, hfc, hp, hck]⟩
          · exact
              ⟨{ map_stock_config_to_params bc with adapter_size := none },
                by simp [Definition.create_model, hfc, hp, hck]⟩

/-- Concrete instance of C4: with no configuration file present,
create_model fails with a file-not-found error and performs no
weight-loading step. -/
theorem config_parse_precedes_weight_load_witness :
    (Definition.create_model envDirOnly "/base" fsEmpty 0 128 5).2 =
      .error (.fileNotFound "/opt/enc/bert_config.json") ∧
    Step.loadWeights "/opt/enc/bert_model.ckpt" ∉
      (Definition.create_model envDirOnly "/base" fsEmpty 0 128 5).1 :=
  ⟨((config_parse_precedes_weight_load envDirOnly "/base" fsEmpty
      0 128 5).1 rfl).1,
    ((config_parse_precedes_weight_load envDirOnly "/base" fsEmpty
      0 128 5).1 rfl).2 "/opt/enc/bert_model.ckpt"⟩

/-- C5: weight loading only populates the encoder sublayer: the returned
model is exactly the assembled graph mapped through load_stock_weights,
that map fixes every layer not named "bert", the encoder layer's
parameters are populated in place from the checkpoint, and the dense
layers of the classification head remain freshly initialized. -/
theorem load_weights_mutates_only_encoder (env : Env) (base : String)
    (fs : FileSystem) (alloc : Nat) (L N : Int) (bc : StockBertConfig)
    (ck : Nat) (m : KerasModel) (a1 : Nat)
    (hc : fs.files (Definition.bert_config env base) =
      some (.config (.ok bc)))
    (hk : fs.files (Definition.bert_model env base) =
      some (.checkpoint ck))
    (hm : (Definition.create_model env base fs alloc L N).2 = .ok (m, a1)) :
    ∃ p, m.layers =
        (Definition.assembledLayers p alloc L N).map
          (load_stock_weights (Definition.bert_model env base) ck) ∧
      (∀ l : Layer, l.name ≠ some "bert" →
        load_stock_weights (Definition.bert_model env base) ck l = l) ∧
      (∀ l ∈ m.layers, l.name = some "bert" →
        l.weights = .loadedFrom (Definition.bert_model env base) ck) ∧
      (∀ l ∈ m.layers, (∃ u a, l.kind = .dense u a) →
        ∃ seed, l.weights = .fresh seed) := by
  simp [Definition.create_model, hc, hk, StockBertConfig.from_json_string]
    at hm
  obtain ⟨hm1, -⟩ := hm
  subst hm1
  refine ⟨{ map_stock_config_to_params bc with adapter_size := none },
    rfl, ?_, ?_, ?_⟩
  · intro l hl
    simp [load_stock_weights, hl]
  · intro l hl hname
    simp [Definition.assembledLayers, load_stock_weights] at hl
    rcases hl with h | h | h | h | h | h | h <;> subst h <;> simp_all
  · intro l hl hd
    simp [Definition.assembledLayers, load_stock_weights] at hl
    rcases hl with h | h | h | h | h | h | h <;> subst h <;> simp_all

/-- Concrete instance of C5: on the sample file system the returned model
is the assembled graph with only its encoder sublayer populated from the
checkpoint, the head dense layers staying freshly initialized. -/
theorem load_weights_mutates_only_encoder_witness :
    ∃ p, mSample.layers =
        (Definition.assembledLayers p 0 128 5).map
          (load_stock_weights
            (Definition.bert_model envDirOnly "/base") 7) ∧
      (∀ l : Layer, l.name ≠ some "bert" →
        load_stock_weights (Definition.bert_model envDirOnly "/base") 7 l
          = l) ∧
      (∀ l ∈ mSample.layers, l.name = some "bert" →
        l.weights =
          .loadedFrom (Definition.bert_model envDirOnly "/base") 7) ∧
      (∀ l ∈ mSample.layers, (∃ u a, l.kind = .dense u a) →
        ∃ seed, l.weights = .fresh seed) :=
  load_weights_mutates_only_encoder envDirOnly "/base" fsValid 0 128 5
    bcSample 7 mSample 4 rfl rfl rfl

/-- C6: two successive create_model calls with the same arguments on the
same file system yield models with identical encoder-layer weight values
and identical layer structure, but distinct graph identities (no aliasing
between the two returned graphs). -/
theorem repeated_create_model_deterministic_and_fresh (env : Env)
    (base : String) (fs : FileSystem) (a0 a1 a2 : Nat) (L N : Int)
    (m1 m2 : KerasModel)
    (h1 : (Definition.create_model env base fs a0 L N).2 = .ok (m1, a1))
    (h2 : (Definition.create_model env base fs a1 L N).2 = .ok (m2, a2)) :
    ((m1.layers.filter (fun l => l.name = some "bert")).map
        (fun l => l.weights)) =
      ((m2.layers.filter (fun l => l.name = some "bert")).map
        (fun l => l.weights)) ∧
    m1.layers.map (fun l => l.kind) = m2.layers.map (fun l => l.kind) ∧
    m1.graphId ≠ m2.graphId := by
  rcases hfc : fs.files (Definition.bert_config env base) with _ | content
  · simp [Definition.create_model, hfc] at h1
  · rcases hp : StockBertConfig.from_json_string content with msg | bc
    · simp [Definition.create_model, hfc, hp] at h1
    · rcases hck : fs.files (Definition.bert_model env base) with _ | c
      · simp [Definition.create_model, hfc, hp, hck] at h1
      · rcases c with r | ck | toks
        · simp [Definition.create_model, hfc, hp, hck] at h1
        · simp [Definition.create_model, hfc, hp, hck] at h1 h2
          obtain ⟨e1, e1a⟩ := h1
          obtain ⟨e2, e2a⟩ := h2
          subst e1
          subst e2
          refine ⟨?_, ?_, ?_⟩
          · simp [Definition.assembledLayers, load_stock_weights]
          · simp [Definition.assembledLayers, load_stock_weights]
          · simp
            omega
        · simp [Definition.create_model, hfc, hp, hck] at h1

/-- Concrete instance of C6: the two sample models from successive calls
share encoder weights and structure but have distinct graph ids. -/
theorem repeated_create_model_deterministic_and_fresh_witness :
    ((mSample.layers.filter (fun l => l.name = some "bert")).map
        (fun l => l.weights)) =
      ((mSample2.layers.filter (fun l => l.name = some "bert")).map
        (fun l => l.weights)) ∧
    mSample.layers.map (fun l => l.kind) =
      mSample2.layers.map (fun l => l.kind) ∧
    mSample.graphId ≠ mSample2.graphId :=
  repeated_create_model_deterministic_and_fresh envDirOnly "/base" fsValid
    0 4 8 128 5 mSample mSample2 rfl rfl

/-- C8: get_tokenizer constructs a fresh instance on every call, each bound
to the vocab.txt file in the resolved encoder directory, and any two
returned instances tokenize every input string identically over every
file system. -/
theorem get_tokenizer_fresh_and_deterministic (env : Env) (base : String)
    (alloc : Nat) :
    (Definition.get_tokenizer env base alloc).1 ≠
      (Definition.get_tokenizer env base
        (Definition.get_tokenizer env base alloc).2).1 ∧
    (Definition.get_tokenizer env base alloc).1.vocab_file =
      osPathJoin (Definition.bert_dir env base) "vocab.txt" ∧
    (Definition.get_tokenizer env base
        (Definition.get_tokenizer env base alloc).2).1.vocab_file =
      (Definition.get_tokenizer env base alloc).1.vocab_file ∧
    ∀ (fs : FileSystem) (s : String),
      (Definition.get_tokenizer env base alloc).1.tokenize fs s =
        (Definition.get_tokenizer env base
          (Definition.get_tokenizer env base alloc).2).1.tokenize fs s := by
  refine ⟨?_, rfl, rfl, fun fs s => rfl⟩
  intro h
  have hid := congrArg FullTokenizer.instanceId h
  simp [Definition.get_tokenizer] at hid

/-- Concrete instance of C8: two successive tokenizer constructions are
distinct instances that tokenize a sample string identically. -/
theorem get_tokenizer_fresh_and_deterministic_witness :
    (Definition.get_tokenizer envDirOnly "/base" 0).1 ≠
      (Definition.get_tokenizer envDirOnly "/base"
        (Definition.get_tokenizer envDirOnly "/base" 0).2).1 ∧
    (Definition.get_tokenizer envDirOnly "/base" 0).1.tokenize fsValid
        "hello world" =
      (Definition.get_tokenizer envDirOnly "/base"
        (Definition.get_tokenizer envDirOnly "/base" 0).2).1.tokenize
        fsValid "hello world" :=
  ⟨(get_tokenizer_fresh_and_deterministic envDirOnly "/base" 0).1,
    (get_tokenizer_fresh_and_deterministic envDirOnly "/base" 0).2.2.2
      fsValid "hello world"⟩

/-- C9: the summary printer delegates directly to the model's own summary
routine: its value is always exactly the underlying routine's value, so
any error the routine raises is passed through unmodified and no error
originates in the printer itself. -/
theorem model_summary_print_delegates (m : KerasModel) :
    ModelSummary.print m = m.summary ∧
    (∀ e, m.summary = Except.error e →
      ModelSummary.print m = Except.error e) ∧
    (∀ s, m.summary = Except.ok s → ModelSummary.print m = Except.ok s) :=
  ⟨rfl, fun _ h => h, fun _ h => h⟩

/-- Concrete instance of C9: on an unbuilt model the underlying summary
routine's error is passed through unchanged by the printer. -/
theorem model_summary_print_delegates_witness :
    ModelSummary.print
        { layers := [], builtInputShape := (none, none), graphId := 0,
          built := false } =
      Except.error "This model has not yet been built." :=
  (model_summary_print_delegates
      { layers := [], builtInputShape := (none, none), graphId := 0,
        built := false }).2.1
    "This model has not yet been built." rfl

/-- C10: create_model performs no validation of its integer arguments: for
every integer max sequence length L and number of intents N, zero and
negative included, assembly succeeds on a valid file system and L and N
are passed directly into the input placeholder and the final dense
layer. -/
theorem create_model_no_argument_validation (env : Env) (base : String)
    (fs : FileSystem) (alloc : Nat) (L N : Int) (bc : StockBertConfig)
    (ck : Nat)
    (hc : fs.files (Definition.bert_config env base) =
      some (.config (.ok bc)))
    (hk : fs.files (Definition.bert_model env base) =
      some (.checkpoint ck)) :
    ∃ m a1,
      (Definition.create_model env base fs alloc L N).2 = .ok (m, a1) ∧
      (∃ l ∈ m.layers, l.kind = .input L "int32") ∧
      (∃ l ∈ m.layers, l.kind = .dense N "softmax") := by
  refine
    ⟨{ layers :=
           (Definition.assembledLayers
               { map_stock_config_to_params bc with adapter_size := none }
               alloc L N).map
             (load_stock_weights (Definition.bert_model env base) ck),
       builtInputShape := (none, some L), graphId := alloc + 3,
       built := true },
      alloc + 4, ?_, ?_, ?_⟩
  · simp [Definition.create_model, hc, hk,
      StockBertConfig.from_json_string]
  · refine
      ⟨{ kind := .input L "int32", name := some "input_ids",
         weights := .noParams }, ?_, rfl⟩
    simp [Definition.assembledLayers, load_stock_weights]
  · refine
      ⟨{ kind := .dense N "softmax", name := none,
         weights := .fresh (alloc + 2) }, ?_, rfl⟩
    simp [Definition.assembledLayers, load_stock_weights]

/-- Concrete instance of C10: with a negative sequence length and zero
intents, create_model still succeeds and passes both values through. -/
theorem create_model_no_argument_validation_witness :
    ∃ m a1,
      (Definition.create_model envDirOnly "/base" fsValid 0 (-3) 0).2 =
        .ok (m, a1) ∧
      (∃ l ∈ m.layers, l.kind = .input (-3) "int32") ∧
      (∃ l ∈ m.layers, l.kind = .dense 0 "softmax") :=
  create_model_no_argument_validation envDirOnly "/base" fsValid 0 (-3) 0
    bcSample 7 rfl rfl

end Woodgate
